import Mathlib

/-!
Verification of the metrics repository: a shallow embedding of the
`MeanSquaredError` accumulator (src/src/torchmetrics/regression/mse.py),
its functional layer, and the `TweedieDevianceScore` metric exercised by
src/tests/unittests/regression/test_tweedie_deviance.py.

Modelling conventions:
* Tensors are a shape (list of dimension sizes) together with row-major
  rational data.  Exact rational arithmetic stands in for floating point;
  the spec's equivalence laws are stated "within floating-point tolerance",
  which exact arithmetic satisfies exactly.
* The external numeric kernel's transcendental functions (square root,
  logarithm, rational powers) are parameters of the definitions: the spec
  declares the tensor-math library an external collaborator.
* A non-finite result of floating-point division (0/0 → NaN) is modelled as
  `Option.none`; every finite result is `some q`.
* Fallible operations return `Except MetricError`; stateful Python methods
  become explicit state passing (a method returns the new object, and an
  error carries no successor state, mirroring fail-fast with no mutation).
* Dynamically typed Python arguments are modelled by the `PyVal` type, with
  `isinstance` semantics including the fact that `bool` is a subclass of
  `int` in Python.
-/

/-- Error taxonomy of the spec (section 7): construction-time configuration
errors, shape disagreements at update time, and mathematical-domain
violations at update time.  Each carries its message. -/
inductive MetricError where
  | invalidArgument (msg : String)
  | shapeMismatch (msg : String)
  | domainViolation (msg : String)
  deriving DecidableEq

/-- A tensor: a shape together with row-major rational data. -/
structure Tensor where
  shape : List Nat
  data : List ℚ
  deriving DecidableEq

/-- Well-formedness of a tensor: the data has exactly as many entries as the
shape prescribes. -/
def Tensor.wf (t : Tensor) : Prop := t.data.length = t.shape.prod

instance (t : Tensor) : Decidable t.wf :=
  decidable_of_iff (t.data.length = t.shape.prod) Iff.rfl

/-- Dynamically typed Python values, as far as the validation code in
`MeanSquaredError.__init__` inspects them. -/
inductive PyVal where
  | bool (b : Bool)
  | int (n : Int)
  | float (q : ℚ)
  | str (s : String)
  | tuple (xs : List PyVal)

/-- Python `isinstance(v, bool)`. -/
def PyVal.isBoolInst : PyVal → Bool
  | .bool _ => true
  | _ => false

/-- Python `isinstance(v, int)`: `bool` is a subclass of `int`, so boolean
values are int instances too. -/
def PyVal.isIntInst : PyVal → Bool
  | .int _ => true
  | .bool _ => true
  | _ => false

/-- Numeric value of an int instance (`True` is 1, `False` is 0); zero on
the remaining constructors, which never reach a numeric context in the
modelled code. -/
def PyVal.intVal : PyVal → Int
  | .int n => n
  | .bool b => if b then 1 else 0
  | _ => 0

/-- Boolean value of a bool instance; `false` elsewhere (only reached after
an `isinstance(v, bool)` guard in the modelled code). -/
def PyVal.asBool : PyVal → Bool
  | .bool b => b
  | _ => false

/-- Python comparison `v == "all"` as performed on the `reduce_dims`
argument. -/
def pyEqStrAll : PyVal → Bool
  | .str s => s == "all"
  | _ => false

/-- The `num_outputs` admission test of `MeanSquaredError.__init__`
(mse.py lines 96-99): a positive int instance, or a tuple whose members are
all positive int instances. -/
def numOutputsOk (v : PyVal) : Bool :=
  (v.isIntInst && decide (0 < v.intVal))
    || (match v with
        | .tuple xs => xs.all fun u => u.isIntInst && decide (0 < u.intVal)
        | _ => false)

/-- The `reduce_dims` admission test of `MeanSquaredError.__init__`
(mse.py lines 106-110): an int instance, a tuple of int instances, or the
string "all". -/
def reduceDimsOk (v : PyVal) : Bool :=
  v.isIntInst
    || (match v with
        | .tuple xs => xs.all PyVal.isIntInst
        | _ => false)
    || pyEqStrAll v

/-- Shape of `torch.zeros(num_outputs)` (mse.py line 119).  Only reached on
values passing `numOutputsOk`; the catch-all answer is arbitrary. -/
def numOutputsShape : PyVal → List Nat
  | .int n => [n.toNat]
  | .bool b => [if b then 1 else 0]
  | .tuple xs => xs.map fun v => v.intVal.toNat
  | _ => []

/-- Result of a successful `MeanSquaredError.__init__`: the stored
configuration and the freshly created state fields (mse.py lines 94-120).
The `sum_squared_error` state starts as zeros of the recorded shape and the
`total` counter starts at the integer 0. -/
structure MseConfigured where
  squared : Bool
  output_size : PyVal
  reduce_dimensions : Option PyVal
  sum_squared_error_shape : List Nat
  total : Int

/-- Embedding of `MeanSquaredError.__init__` (mse.py lines 83-120):
validate `squared`, then `num_outputs`, then `reduce_dims`, raising a
construction error before any state field is created; on success normalise
`reduce_dims == "all"` to `None` and create the zeroed state fields. -/
def mseInit (squared num_outputs reduce_dims : PyVal) : Except MetricError MseConfigured :=
  if !squared.isBoolInst then
    .error (.invalidArgument "Expected argument squared to be a boolean")
  else if !numOutputsOk num_outputs then
    .error (.invalidArgument
      "Expected num_outputs to be a positive integer or a tuple of positive integers")
  else if !reduceDimsOk reduce_dims then
    .error (.invalidArgument
      "Expected reduce_dimensions to be an integer, a tuple of integers or all")
  else
    .ok { squared := squared.asBool
          output_size := num_outputs
          reduce_dimensions := if pyEqStrAll reduce_dims then Option.none else some reduce_dims
          sum_squared_error_shape := numOutputsShape num_outputs
          total := 0 }

/-- The valid-configuration domain as the spec words it (section 4.2):
`squared` a boolean, `num_outputs` a positive integer or a tuple of positive
integers, `reduce_dims` "all", an integer, or a tuple of integers — where
"integer" is read in the ordinary mathematical sense, a value of the
dedicated integer type rather than of a subtype such as `bool`.  This is the
spec-side definition of a refinement comparison; contrast `numOutputsOk`,
which is the code's test. -/
def isSpecPosInt : PyVal → Bool
  | .int n => decide (0 < n)
  | _ => false

/-- A value that is an integer in the spec's strict sense (not a boolean). -/
def isSpecInt : PyVal → Bool
  | .int _ => true
  | _ => false

/-- The spec's reading of the `num_outputs` constraint: a positive integer
or a tuple of positive integers, integers in the strict sense. -/
def specPosIntOrTuple (v : PyVal) : Bool :=
  isSpecPosInt v
    || (match v with
        | .tuple xs => xs.all isSpecPosInt
        | _ => false)

/-- The spec's reading of the whole valid-configuration domain of
`MeanSquaredError` (section 4.2 validation sentence). -/
def mseSpecInDomain (squared num_outputs reduce_dims : PyVal) : Bool :=
  squared.isBoolInst
    && specPosIntOrTuple num_outputs
    && (isSpecInt reduce_dims
        || (match reduce_dims with
            | .tuple xs => xs.all isSpecInt
            | _ => false)
        || pyEqStrAll reduce_dims)

/-- The code's valid-configuration domain, stated structurally: exactly the
configurations on which none of the three validation tests of
`MeanSquaredError.__init__` fires. -/
def msePyInDomain (squared num_outputs reduce_dims : PyVal) : Prop :=
  (∃ b, squared = PyVal.bool b)
    ∧ ((num_outputs.isIntInst ∧ 0 < num_outputs.intVal)
        ∨ ∃ xs, num_outputs = PyVal.tuple xs ∧ ∀ u ∈ xs, u.isIntInst ∧ 0 < u.intVal)
    ∧ (reduce_dims.isIntInst
        ∨ (∃ xs, reduce_dims = PyVal.tuple xs ∧ ∀ u ∈ xs, u.isIntInst)
        ∨ reduce_dims = PyVal.str "all")

/-- State of a `MeanSquaredError` accumulator in its default configuration
(`num_outputs = 1`, `reduce_dims = "all"`): the scalar running sum of
squared errors and the integer observation count (mse.py lines 80-81,
119-120), plus the immutable `squared` flag. -/
structure MeanSquaredError where
  squared : Bool
  sum_squared_error : ℚ
  total : Int
  deriving DecidableEq

/-- Modelled from the spec: the functional update step
`_mean_squared_error_update` (imported by mse.py but outside this excerpt)
in the default reduce-all configuration — inputs must have identical shape
(ShapeMismatch otherwise, before any arithmetic); on success it returns the
sum of elementwise squared differences together with the number of observed
elements (spec sections 4.1 and 4.2). -/
def mean_squared_error_update (preds target : Tensor) : Except MetricError (ℚ × Nat) :=
  if preds.shape ≠ target.shape then
    .error (.shapeMismatch "Predictions and targets are expected to have the same shape")
  else
    .ok (((preds.data.zip target.data).map fun pt => (pt.1 - pt.2) ^ 2).sum,
         preds.data.length)

/-- Modelled from the spec: the functional compute step
`_mean_squared_error_compute` (imported by mse.py but outside this excerpt) —
divide the accumulated sum of squared errors by the accumulated count and,
when the `squared` flag is false, apply the external kernel's square root
`sqrt`.  A zero count makes the division non-finite (0/0 → NaN), modelled as
`Option.none`; there is no special handling (spec sections 4.1 and 4.2). -/
def mean_squared_error_compute (sqrt : ℚ → ℚ) (sse : ℚ) (total : Int)
    (squared : Bool) : Option ℚ :=
  if total = 0 then Option.none
  else some (if squared then sse / (total : ℚ) else sqrt (sse / (total : ℚ)))

/-- Embedding of `MeanSquaredError.update` (mse.py lines 122-127): delegate
to the functional update, then fold the partial aggregate into the state by
the sum reduction operator.  An error from the functional layer propagates
and produces no successor state. -/
def MeanSquaredError.update (m : MeanSquaredError) (preds target : Tensor) :
    Except MetricError MeanSquaredError := do
  let r ← mean_squared_error_update preds target
  pure { m with sum_squared_error := m.sum_squared_error + r.1
                total := m.total + (r.2 : Int) }

/-- Embedding of `MeanSquaredError.compute` (mse.py lines 129-131): a pure
function of the current state.  The method body contains no assignment, so
the returned object is the receiver unchanged. -/
def MeanSquaredError.compute (sqrt : ℚ → ℚ) (m : MeanSquaredError) :
    Option ℚ × MeanSquaredError :=
  (mean_squared_error_compute sqrt m.sum_squared_error m.total m.squared, m)

/-- Modelled from the spec: `reset` (provided by the Metric base class,
outside this excerpt) sets every state field to its declared identity — 0
for the sum, 0 for the count (spec section 4.1). -/
def MeanSquaredError.reset (m : MeanSquaredError) : MeanSquaredError :=
  { m with sum_squared_error := 0, total := 0 }

/-- A freshly constructed `MeanSquaredError()` with default arguments:
`squared = True` and zeroed state (mse.py lines 83-120). -/
def mseDefault : MeanSquaredError :=
  { squared := true, sum_squared_error := 0, total := 0 }

/-- Run a sequence of `update` calls against an accumulator, stopping at the
first error. -/
def runBatches (m : MeanSquaredError) (batches : List (Tensor × Tensor)) :
    Except MetricError MeanSquaredError :=
  batches.foldlM (fun s b => s.update b.1 b.2) m

/-- The streaming protocol of the spec's equivalence law: reset, update once
per batch, then compute. -/
def streamCompute (sqrt : ℚ → ℚ) (m : MeanSquaredError)
    (batches : List (Tensor × Tensor)) : Except MetricError (Option ℚ) := do
  let st ← runBatches m.reset batches
  pure (st.compute sqrt).1

/-- Concatenation of a list of tensors into one flat one-dimensional
tensor, the "concatenation of all observed batches" of the spec. -/
def Tensor.concat (ts : List Tensor) : Tensor :=
  { shape := [((ts.map Tensor.data).flatten).length]
    data := (ts.map Tensor.data).flatten }

/-- The one-shot functional evaluation of the spec's equivalence law: the
functional update applied once to the concatenated dataset, finalised by
the functional compute. -/
def oneShotCompute (sqrt : ℚ → ℚ) (sq : Bool)
    (batches : List (Tensor × Tensor)) : Except MetricError (Option ℚ) := do
  let r ← mean_squared_error_update (Tensor.concat (batches.map Prod.fst))
            (Tensor.concat (batches.map Prod.snd))
  pure (mean_squared_error_compute sqrt r.1 (r.2 : Int) sq)

/-- Partial aggregate of a single batch: its sum of squared differences. -/
def batchSse (b : Tensor × Tensor) : ℚ :=
  ((b.1.data.zip b.2.data).map fun pt => (pt.1 - pt.2) ^ 2).sum

/-- Number of elements a single batch contributes. -/
def batchLen (b : Tensor × Tensor) : Nat := b.1.data.length

/-- State of a `TweedieDevianceScore` accumulator: the configured power, the
running deviance sum and the observation count.  Modelled from the spec: the
class itself is outside this excerpt; only its tests are in the repository
(spec sections 4.3 and 6). -/
structure TweedieDevianceScore where
  power : ℚ
  sum_deviance_score : ℚ
  num_observations : Int
  deriving DecidableEq

/-- Modelled from the spec: `TweedieDevianceScore` construction — the power
0.5 is mathematically invalid and fails construction with a message naming
the forbidden value (spec section 4.3; the expected message is the one the
repository's test matches).  Any other power is stored with zeroed state. -/
def tweedieInit (power : ℚ) : Except MetricError TweedieDevianceScore :=
  if power = 1 / 2 then
    .error (.invalidArgument "Deviance Score is not defined for power=0.5.")
  else
    .ok { power := power, sum_deviance_score := 0, num_observations := 0 }

/-- Modelled from the spec: the functional Tweedie update (spec section
4.3).  The shape check comes first, before any arithmetic; then the
power-specific domain checks; then the per-element deviance terms are
summed and returned with the element count.  `lg` is the external kernel's
logarithm and `rpow` its real power function. -/
def tweedie_deviance_score_update (lg : ℚ → ℚ) (rpow : ℚ → ℚ → ℚ) (power : ℚ)
    (preds target : Tensor) : Except MetricError (ℚ × Nat) :=
  if preds.shape ≠ target.shape then
    .error (.shapeMismatch "Predictions and targets are expected to have the same shape")
  else if power = 0 then
    .ok (((preds.data.zip target.data).map fun pt => (pt.2 - pt.1) ^ 2).sum,
         preds.data.length)
  else if power = 1 then
    if (preds.data.any fun x => decide (x ≤ 0)) || (target.data.any fun y => decide (y < 0)) then
      .error (.domainViolation
        "For power=1, preds has to be strictly positive and targets cannot be negative.")
    else
      .ok (((preds.data.zip target.data).map
              fun pt => 2 * (pt.2 * lg (pt.2 / pt.1) + pt.1 - pt.2)).sum,
           preds.data.length)
  else if power = 2 then
    if (preds.data.any fun x => decide (x ≤ 0)) || (target.data.any fun y => decide (y ≤ 0)) then
      .error (.domainViolation
        "For power=2, both preds and targets have to be strictly positive.")
    else
      .ok (((preds.data.zip target.data).map
              fun pt => 2 * (lg (pt.1 / pt.2) + pt.2 / pt.1 - 1)).sum,
           preds.data.length)
  else
    .ok (((preds.data.zip target.data).map fun pt =>
            2 * (rpow pt.2 (2 - power) / ((1 - power) * (2 - power))
                 - pt.2 * rpow pt.1 (1 - power) / (1 - power)
                 + rpow pt.1 (2 - power) / (2 - power))).sum,
         preds.data.length)

/-- Modelled from the spec: `TweedieDevianceScore.update` — delegate to the
functional update for this instance's power, then fold the partial
aggregate into the state by the sum reduction operator. -/
def TweedieDevianceScore.update (lg : ℚ → ℚ) (rpow : ℚ → ℚ → ℚ)
    (m : TweedieDevianceScore) (preds target : Tensor) :
    Except MetricError TweedieDevianceScore := do
  let r ← tweedie_deviance_score_update lg rpow m.power preds target
  pure { m with sum_deviance_score := m.sum_deviance_score + r.1
                num_observations := m.num_observations + (r.2 : Int) }

/-- A value is a bool instance exactly when it is a boolean. -/
lemma pyIsBoolInst_iff (v : PyVal) : v.isBoolInst = true ↔ ∃ b, v = PyVal.bool b := by
  cases v <;> simp [PyVal.isBoolInst]

/-- The string-equality test fires exactly on the string "all". -/
lemma pyEqStrAll_iff (v : PyVal) : pyEqStrAll v = true ↔ v = PyVal.str "all" := by
  cases v <;> simp [pyEqStrAll]

/-- The code's `num_outputs` test, characterised structurally. -/
lemma numOutputsOk_iff (v : PyVal) :
    numOutputsOk v = true
      ↔ ((v.isIntInst ∧ 0 < v.intVal)
          ∨ ∃ xs, v = PyVal.tuple xs ∧ ∀ u ∈ xs, u.isIntInst ∧ 0 < u.intVal) := by
  cases v <;> simp [numOutputsOk, PyVal.isIntInst, PyVal.intVal, List.all_eq_true]

/-- The code's `reduce_dims` test, characterised structurally. -/
lemma reduceDimsOk_iff (v : PyVal) :
    reduceDimsOk v = true
      ↔ (v.isIntInst
          ∨ (∃ xs, v = PyVal.tuple xs ∧ ∀ u ∈ xs, u.isIntInst)
          ∨ v = PyVal.str "all") := by
  cases v <;> simp [reduceDimsOk, PyVal.isIntInst, pyEqStrAll, List.all_eq_true]

/-- C2: for a freshly constructed MeanSquaredError with default
configuration, one update on preds = [3.0, 5.0, 2.5, 7.0] and
target = [2.5, 5.0, 4.0, 8.0] followed by compute returns 0.8750 = 7/8. -/
theorem mse_concrete_scalar (sqrt : ℚ → ℚ) :
    (mseDefault.update ⟨[4], [3, 5, 5/2, 7]⟩ ⟨[4], [5/2, 5, 4, 8]⟩).map
        (fun st => (st.compute sqrt).1)
      = .ok (some (7 / 8)) := by
  simp only [mseDefault, MeanSquaredError.update, mean_squared_error_update,
    MeanSquaredError.compute, mean_squared_error_compute, Except.map, bind, Except.bind,
    pure, Except.pure, List.zip_cons_cons, List.zip_nil_right, List.map_cons, List.map_nil,
    List.sum_cons, List.sum_nil, List.length_cons, List.length_nil]
  norm_num

/-- C7: compute is a pure reader of the accumulator state — it leaves the
state fields sum_squared_error and total unchanged, and calling it twice
without an intervening update returns identical results. -/
theorem mse_compute_idempotent (sqrt : ℚ → ℚ) (m : MeanSquaredError) :
    ((m.compute sqrt).2).sum_squared_error = m.sum_squared_error
      ∧ ((m.compute sqrt).2).total = m.total
      ∧ (((m.compute sqrt).2).compute sqrt).1 = (m.compute sqrt).1 :=
  ⟨rfl, rfl, rfl⟩

/-- C8: if validation inside update fails, the very error raised by the
functional layer propagates to the caller and no successor state is
produced — the accumulator's persistent state is exactly what it was before
the failing call. -/
theorem mse_update_error_propagates (m : MeanSquaredError) (preds target : Tensor)
    (e : MetricError) (h : mean_squared_error_update preds target = .error e) :
    m.update preds target = .error e := by
  unfold MeanSquaredError.update
  rw [h]
  rfl

/-- Witness for C8: a concrete shape mismatch makes update fail with the
functional layer's error and no new state. -/
theorem mse_update_error_propagates_witness :
    mean_squared_error_update ⟨[1], [1]⟩ ⟨[2], [1, 2]⟩
        = .error (.shapeMismatch "Predictions and targets are expected to have the same shape")
      ∧ mseDefault.update ⟨[1], [1]⟩ ⟨[2], [1, 2]⟩
        = .error (.shapeMismatch "Predictions and targets are expected to have the same shape") :=
  ⟨rfl, mse_update_error_propagates mseDefault _ _ _ rfl⟩

/-- C9: on a freshly constructed (or freshly reset) MeanSquaredError the
state fields hold their zero identities, and compute does not signal an
error: it returns the non-finite value that 0/0 produces under
floating-point division semantics (modelled as Option.none), with no
special handling. -/
theorem mse_compute_fresh_is_nan (sqrt : ℚ → ℚ) (m : MeanSquaredError) :
    mseDefault.sum_squared_error = 0 ∧ mseDefault.total = 0
      ∧ (mseDefault.compute sqrt).1 = Option.none
      ∧ (m.reset).sum_squared_error = 0 ∧ (m.reset).total = 0
      ∧ ((m.reset).compute sqrt).1 = Option.none :=
  ⟨rfl, rfl, rfl, rfl, rfl, rfl⟩

/-- C4: constructing a TweedieDevianceScore with power exactly 0.5 fails
with a construction error whose message identifies the forbidden value
0.5. -/
theorem tweedie_power_half_rejected :
    tweedieInit (1 / 2)
        = .error (.invalidArgument "Deviance Score is not defined for power=0.5.")
      ∧ "Deviance Score is not defined for power=0.5."
          = "Deviance Score is not defined for power=" ++ "0.5" ++ "." :=
  ⟨by unfold tweedieInit; rw [if_pos rfl], rfl⟩

/-- C10: the boolean True is not a positive integer (nor a tuple of
positive integers) in the spec's strict sense, yet it is an int instance
with positive numeric value, so MeanSquaredError construction with
num_outputs = True succeeds without raising. -/
theorem mse_num_outputs_bool_true_accepted :
    specPosIntOrTuple (PyVal.bool true) = false
      ∧ PyVal.isIntInst (PyVal.bool true) = true
      ∧ 0 < (PyVal.bool true).intVal
      ∧ mseInit (PyVal.bool true) (PyVal.bool true) (PyVal.str "all")
          = .ok { squared := true
                  output_size := PyVal.bool true
                  reduce_dimensions := Option.none
                  sum_squared_error_shape := [1]
                  total := 0 } :=
  ⟨rfl, rfl, by decide, rfl⟩

/-- Counterexample to C3 as stated: with the spec's wording read strictly
(a positive integer is a value of integer type, not of its subtype bool),
the configuration squared = True, num_outputs = True, reduce_dims = "all" is
out of domain, yet construction succeeds without raising. -/
theorem mse_init_spec_domain_counterexample :
    mseSpecInDomain (PyVal.bool true) (PyVal.bool true) (PyVal.str "all") = false
      ∧ mseInit (PyVal.bool true) (PyVal.bool true) (PyVal.str "all")
          = .ok { squared := true
                  output_size := PyVal.bool true
                  reduce_dimensions := Option.none
                  sum_squared_error_shape := [1]
                  total := 0 } :=
  ⟨rfl, rfl⟩

/-- C3 (amended): MeanSquaredError construction raises a construction error,
before any state field is created, if and only if the configuration is out
of domain in the sense the code checks: `squared` is not a boolean, or
`num_outputs` is neither a positive int instance (Python `int`, a type that
includes `bool`) nor a tuple of positive int instances, or `reduce_dims` is
none of "all", an int instance, or a tuple of int instances; for every
configuration inside that domain construction succeeds. -/
theorem mse_init_error_iff (s n r : PyVal) :
    (∃ e, mseInit s n r = .error e) ↔ ¬ msePyInDomain s n r := by
  have hchar : msePyInDomain s n r
      ↔ (s.isBoolInst = true ∧ numOutputsOk n = true ∧ reduceDimsOk r = true) := by
    unfold msePyInDomain
    rw [pyIsBoolInst_iff, numOutputsOk_iff, reduceDimsOk_iff]
  rw [hchar]
  unfold mseInit
  by_cases h1 : s.isBoolInst
  · by_cases h2 : numOutputsOk n
    · by_cases h3 : reduceDimsOk r
      · simp [h1, h2, h3]
      · simp [h1, h2, h3]
    · simp [h1, h2]
  · simp [h1]

/-- C5: TweedieDevianceScore.update raises the shape-mismatch error exactly
when the shapes of preds and target differ; the check precedes every
arithmetic branch, and agreeing shapes can only produce a success or a
domain-violation error, never a shape mismatch. -/
theorem tweedie_shape_mismatch_iff (lg : ℚ → ℚ) (rpow : ℚ → ℚ → ℚ)
    (m : TweedieDevianceScore) (preds target : Tensor) :
    (∃ msg, TweedieDevianceScore.update lg rpow m preds target
        = .error (.shapeMismatch msg))
      ↔ preds.shape ≠ target.shape := by
  unfold TweedieDevianceScore.update tweedie_deviance_score_update
  split_ifs with h1 h2 h3 h4 h5 h6 <;>
    simp [bind, Except.bind, pure, Except.pure, h1]

/-- C6: for a TweedieDevianceScore with power = 1 and shape-agreeing
inputs, update raises the domain-violation error exactly when preds
contains a non-strictly-positive element or target contains a negative
element; when preds is elementwise positive and target elementwise
non-negative, update succeeds. -/
theorem tweedie_power1_domain (lg : ℚ → ℚ) (rpow : ℚ → ℚ → ℚ)
    (m : TweedieDevianceScore) (preds target : Tensor)
    (hp : m.power = 1) (hs : preds.shape = target.shape) :
    (TweedieDevianceScore.update lg rpow m preds target
        = .error (.domainViolation
          "For power=1, preds has to be strictly positive and targets cannot be negative.")
      ↔ ((∃ x ∈ preds.data, x ≤ 0) ∨ ∃ y ∈ target.data, y < 0))
    ∧ (((∀ x ∈ preds.data, 0 < x) ∧ ∀ y ∈ target.data, 0 ≤ y) →
        ∃ m2, TweedieDevianceScore.update lg rpow m preds target = .ok m2) := by
  unfold TweedieDevianceScore.update tweedie_deviance_score_update
  rw [hp]
  by_cases hbad : (∃ x ∈ preds.data, x ≤ 0) ∨ ∃ y ∈ target.data, y < 0
  · have hb : ((preds.data.any fun x => decide (x ≤ 0))
        || (target.data.any fun y => decide (y < 0))) = true := by
      simp [List.any_eq_true]
      exact hbad
    constructor
    · simp [hs, hb, bind, Except.bind, hbad]
    · rintro ⟨hpos, hnn⟩
      rcases hbad with ⟨x, hx, hx0⟩ | ⟨y, hy, hy0⟩
      · exact absurd (hpos x hx) (not_lt.mpr hx0)
      · exact absurd (hnn y hy) (not_le.mpr hy0)
  · have hb : ((preds.data.any fun x => decide (x ≤ 0))
        || (target.data.any fun y => decide (y < 0))) = false := by
      push_neg at hbad
      simp [List.any_eq_true]
      exact hbad
    constructor
    · simp [hs, hb, bind, Except.bind, pure, Except.pure, hbad]
    · intro _
      refine ⟨{ power := m.power
                sum_deviance_score := m.sum_deviance_score + ((preds.data.zip target.data).map
                  fun pt => 2 * (pt.2 * lg (pt.2 / pt.1) + pt.1 - pt.2)).sum
                num_observations := m.num_observations + (preds.data.length : Int) }, ?_⟩
      simp [hs, hb, bind, Except.bind, pure, Except.pure]
      exact hp.symm

/-- Witness for C6: with power = 1, preds = [-1, 2, 3] (one non-positive
entry) and a non-negative target of the same shape, update raises the
domain-violation error. -/
theorem tweedie_power1_domain_witness :
    (({ power := 1, sum_deviance_score := 0, num_observations := 0 }
        : TweedieDevianceScore).power = 1)
      ∧ (Tensor.mk [3] [-1, 2, 3]).shape = (Tensor.mk [3] [0, 1, 1]).shape
      ∧ TweedieDevianceScore.update id (fun a _ => a)
          { power := 1, sum_deviance_score := 0, num_observations := 0 }
          ⟨[3], [-1, 2, 3]⟩ ⟨[3], [0, 1, 1]⟩
        = .error (.domainViolation
            "For power=1, preds has to be strictly positive and targets cannot be negative.") :=
  ⟨rfl, rfl,
    (tweedie_power1_domain id (fun a _ => a)
      { power := 1, sum_deviance_score := 0, num_observations := 0 }
      ⟨[3], [-1, 2, 3]⟩ ⟨[3], [0, 1, 1]⟩ rfl rfl).1.mpr (by decide)⟩

/-- A shape-agreeing batch makes update succeed, adding the batch's partial
aggregate to the state. -/
lemma MeanSquaredError.update_ok (m : MeanSquaredError) (b : Tensor × Tensor)
    (h : b.1.shape = b.2.shape) :
    m.update b.1 b.2
      = .ok ⟨m.squared, m.sum_squared_error + batchSse b,
             m.total + (batchLen b : Int)⟩ := by
  unfold MeanSquaredError.update mean_squared_error_update
  rw [if_neg (by simp [h])]
  rfl

/-- Folding a list of shape-agreeing batches accumulates the sums of the
per-batch aggregates. -/
lemma runBatches_ok (batches : List (Tensor × Tensor)) (m : MeanSquaredError)
    (h : ∀ b ∈ batches, b.1.shape = b.2.shape) :
    runBatches m batches
      = .ok ⟨m.squared, m.sum_squared_error + (batches.map batchSse).sum,
             m.total + ((batches.map batchLen).sum : Int)⟩ := by
  induction batches generalizing m with
  | nil =>
    show pure m = _
    simp only [List.map_nil, List.sum_nil, Nat.cast_zero, add_zero]
    rfl
  | cons b bs ih =>
    have hb : b.1.shape = b.2.shape := h b (List.mem_cons_self _ _)
    have hs : ∀ x ∈ bs, x.1.shape = x.2.shape := fun x hx => h x (List.mem_cons_of_mem _ hx)
    have step : runBatches m (b :: bs)
        = runBatches ⟨m.squared, m.sum_squared_error + batchSse b,
            m.total + (batchLen b : Int)⟩ bs := by
      show List.foldlM _ _ _ = _
      rw [List.foldlM_cons, MeanSquaredError.update_ok m b hb]
      rfl
    rw [step, ih _ hs]
    simp [add_assoc]

/-- Zipping the flattened prediction data with the flattened target data of
a list of length-agreeing batches equals flattening the per-batch zips. -/
lemma flatten_zip_batches (batches : List (Tensor × Tensor))
    (h : ∀ b ∈ batches, b.1.data.length = b.2.data.length) :
    (((batches.map Prod.fst).map Tensor.data).flatten).zip
        (((batches.map Prod.snd).map Tensor.data).flatten)
      = (batches.map fun b => b.1.data.zip b.2.data).flatten := by
  induction batches with
  | nil => rfl
  | cons b bs ih =>
    simp only [List.map_cons, List.flatten_cons]
    rw [List.zip_append (h b (List.mem_cons_self _ _)),
      ih fun x hx => h x (List.mem_cons_of_mem _ hx)]

/-- Evaluation of the one-shot functional pipeline on the concatenated
dataset: it succeeds and sees exactly the summed per-batch aggregates. -/
lemma oneShotCompute_eval (sqrt : ℚ → ℚ) (sq : Bool) (batches : List (Tensor × Tensor))
    (h : ∀ b ∈ batches, b.1.data.length = b.2.data.length) :
    oneShotCompute sqrt sq batches
      = .ok (mean_squared_error_compute sqrt ((batches.map batchSse).sum)
          (((batches.map batchLen).sum : Nat) : Int) sq) := by
  have hshapes : ¬ (Tensor.concat (batches.map Prod.fst)).shape
      ≠ (Tensor.concat (batches.map Prod.snd)).shape := by
    simp only [Tensor.concat, ne_eq, List.length_flatten, List.map_map, List.cons.injEq,
      and_true, not_not]
    exact congrArg List.sum (List.map_congr_left fun b hb => h b hb)
  have e1 : (((((batches.map Prod.fst).map Tensor.data).flatten).zip
        (((batches.map Prod.snd).map Tensor.data).flatten)).map
          fun pt => (pt.1 - pt.2) ^ 2).sum
      = (batches.map batchSse).sum := by
    rw [flatten_zip_batches batches h, List.map_flatten, List.sum_flatten]
    simp only [List.map_map]
    exact congrArg List.sum (List.map_congr_left fun b hb => rfl)
  have e2 : (((batches.map Prod.fst).map Tensor.data).flatten).length
      = ((batches.map batchLen).sum : Nat) := by
    rw [List.length_flatten]
    simp only [List.map_map]
    exact congrArg List.sum (List.map_congr_left fun b hb => rfl)
  unfold oneShotCompute mean_squared_error_update
  rw [if_neg hshapes]
  show Except.ok _ >>= _ = _
  simp only [bind, Except.bind, pure, Except.pure]
  rw [show (Tensor.concat (batches.map Prod.fst)).data
      = ((batches.map Prod.fst).map Tensor.data).flatten from rfl,
    show (Tensor.concat (batches.map Prod.snd)).data
      = ((batches.map Prod.snd).map Tensor.data).flatten from rfl,
    e1, e2]

/-- C1: streaming equivalence law.  Resetting a MeanSquaredError
accumulator, updating once per batch (in any order: batches2 is an
arbitrary permutation of batches) and then computing yields exactly the
result of the one-shot functional compute applied to the concatenation of
all batches — the batch boundaries and their order are irrelevant. -/
theorem mse_streaming_equivalence (sqrt : ℚ → ℚ) (m : MeanSquaredError)
    (batches batches2 : List (Tensor × Tensor))
    (hperm : batches2.Perm batches)
    (hshape : ∀ b ∈ batches, b.1.shape = b.2.shape)
    (hwf : ∀ b ∈ batches, b.1.wf ∧ b.2.wf) :
    streamCompute sqrt m batches2 = oneShotCompute sqrt m.squared batches := by
  have hshape2 : ∀ b ∈ batches2, b.1.shape = b.2.shape :=
    fun b hb => hshape b (hperm.mem_iff.mp hb)
  have hlen : ∀ b ∈ batches, b.1.data.length = b.2.data.length := by
    intro b hb
    have h1 := (hwf b hb).1
    have h2 := (hwf b hb).2
    unfold Tensor.wf at h1 h2
    rw [h1, h2, hshape b hb]
  have e1 : (batches2.map batchSse).sum = (batches.map batchSse).sum :=
    (hperm.map batchSse).sum_eq
  have e2 : (batches2.map batchLen).sum = (batches.map batchLen).sum :=
    (hperm.map batchLen).sum_eq
  rw [oneShotCompute_eval sqrt m.squared batches hlen]
  unfold streamCompute
  rw [runBatches_ok batches2 m.reset hshape2]
  show Except.ok _ >>= _ = _
  simp only [bind, Except.bind, pure, Except.pure, MeanSquaredError.compute,
    MeanSquaredError.reset, zero_add, e1, e2]

/-- Witness for C1: a two-batch dataset streamed in the opposite order
equals the one-shot functional compute on the concatenation. -/
theorem mse_streaming_equivalence_witness :
    streamCompute id mseDefault
        [(⟨[2], [1, 2]⟩, ⟨[2], [0, 4]⟩), (⟨[1], [3]⟩, ⟨[1], [5]⟩)]
      = oneShotCompute id true
        [(⟨[1], [3]⟩, ⟨[1], [5]⟩), (⟨[2], [1, 2]⟩, ⟨[2], [0, 4]⟩)] :=
  mse_streaming_equivalence id mseDefault
    [(⟨[1], [3]⟩, ⟨[1], [5]⟩), (⟨[2], [1, 2]⟩, ⟨[2], [0, 4]⟩)]
    [(⟨[2], [1, 2]⟩, ⟨[2], [0, 4]⟩), (⟨[1], [3]⟩, ⟨[1], [5]⟩)]
    (List.Perm.swap _ _ _) (by decide) (by decide)
